import Mathlib

/-!
Shallow embedding of the ai-spine-sdk-js core:

* the error taxonomy and HTTP-status classifier (src/errors.ts:
  `AISpineError` and its subclasses, `createErrorFromResponse`),
* the resilient request executor (src/client.ts: `AISpineClient.handleError`,
  `AISpineClient.executeWithRetry`, constructor default resolution),
* the webhook signature module (src/webhooks.ts: `WebhookSignature.generate`,
  `WebhookSignature.verify`),
* the webhook event handler registry and dispatch (src/webhooks.ts:
  `WebhookEventHandler.on/off/emit/getRegisteredEvents`).

JavaScript strings in the webhook module are modelled as `List Char`
(`JsStr`); machine numbers appearing in the claims are small enough that
`Nat`/`Int` model them exactly.  Theorems settling the frozen claims follow
the definitions.
-/

/-! ### Error taxonomy (src/errors.ts) -/

/-- The spec's closed classification taxonomy for errors: validation,
authentication, authorization, not-found, rate-limit, timeout, network,
server, unknown. -/
inductive ErrorKind
  | validation
  | authentication
  | authorization
  | notFound
  | rateLimit
  | timeout
  | network
  | server
  | unknown
deriving DecidableEq

/-- Model of the `AISpineError` class hierarchy (src/errors.ts).  Each
subclass sets `name`, `message`, `code` and (optionally) `status` in its
constructor; the `details`, `validationErrors` and `retryAfter` payload
fields are elided because no claim mentions them. -/
structure AISpineError where
  name : String
  message : String
  code : String
  status : Option Nat
deriving DecidableEq

/-- `new ValidationError(message, ...)`: code VALIDATION_ERROR, status 400. -/
def ValidationError (message : String) : AISpineError :=
  ⟨"ValidationError", message, "VALIDATION_ERROR", some 400⟩

/-- `new AuthenticationError(message, ...)`: code AUTHENTICATION_ERROR, status 401. -/
def AuthenticationError (message : String) : AISpineError :=
  ⟨"AuthenticationError", message, "AUTHENTICATION_ERROR", some 401⟩

/-- `new AuthorizationError(message, ...)`: code AUTHORIZATION_ERROR, status 403. -/
def AuthorizationError (message : String) : AISpineError :=
  ⟨"AuthorizationError", message, "AUTHORIZATION_ERROR", some 403⟩

/-- `new NotFoundError(resource)` with no id: message is "resource not found",
code NOT_FOUND, status 404. -/
def NotFoundError (resource : String) : AISpineError :=
  ⟨"NotFoundError", resource ++ " not found", "NOT_FOUND", some 404⟩

/-- `new RateLimitError(message, retryAfter, ...)`: code RATE_LIMIT_ERROR,
status 429 (the `retryAfter` field is elided). -/
def RateLimitError (message : String) : AISpineError :=
  ⟨"RateLimitError", message, "RATE_LIMIT_ERROR", some 429⟩

/-- `new NetworkError(message, ...)`: code NETWORK_ERROR, no status. -/
def NetworkError (message : String) : AISpineError :=
  ⟨"NetworkError", message, "NETWORK_ERROR", none⟩

/-- `new TimeoutError(timeout, ...)`: message "Request timed out after Nms",
code TIMEOUT_ERROR, status 408. -/
def TimeoutError (timeout : Nat) : AISpineError :=
  ⟨"TimeoutError", s!"Request timed out after {timeout}ms", "TIMEOUT_ERROR", some 408⟩

/-- `new ServerError(message, status, ...)`: code SERVER_ERROR, carries the
given status. -/
def ServerError (message : String) (status : Nat) : AISpineError :=
  ⟨"ServerError", message, "SERVER_ERROR", some status⟩

/-- The spec's `kind` of a classified error, read off the error's `code`
(the codes are in bijection with the subclasses that the classifier
constructs). -/
def kindOf (e : AISpineError) : ErrorKind :=
  if e.code = "VALIDATION_ERROR" then .validation
  else if e.code = "AUTHENTICATION_ERROR" then .authentication
  else if e.code = "AUTHORIZATION_ERROR" then .authorization
  else if e.code = "NOT_FOUND" then .notFound
  else if e.code = "RATE_LIMIT_ERROR" then .rateLimit
  else if e.code = "TIMEOUT_ERROR" then .timeout
  else if e.code = "NETWORK_ERROR" then .network
  else if e.code = "SERVER_ERROR" then .server
  else .unknown

/-- The canonical HTTP status of a kind, where one exists (spec §3 invariant:
for example kind rate-limit has canonical status 429).  Kinds network, server
and unknown have none (server errors carry one of several statuses). -/
def canonicalStatus : ErrorKind → Option Nat
  | .validation => some 400
  | .authentication => some 401
  | .authorization => some 403
  | .notFound => some 404
  | .timeout => some 408
  | .rateLimit => some 429
  | _ => none

/-- JavaScript `a || b` for an optional string: `undefined` and the empty
string are falsy and fall through to the default. -/
def jsStrOr (v : Option String) (d : String) : String :=
  match v with
  | none => d
  | some "" => d
  | some s => s

/-- JavaScript `a || b` for an optional number: `undefined` and `0` are falsy
and fall through to the default. -/
def jsNatOr (v : Option Nat) (d : Nat) : Nat :=
  match v with
  | none => d
  | some 0 => d
  | some n => n

/-- JavaScript `a ?? b` (nullish coalescing) for an optional number: only
`undefined`/`null` fall through; `0` is kept. -/
def nullishOr (v : Option Nat) (d : Nat) : Nat :=
  match v with
  | none => d
  | some n => n

/-- The fields of an HTTP error-response body that
`createErrorFromResponse` inspects (`data?.message`, `data?.error`,
`data?.timeout`; `validation_errors`, `retry_after` and `details` are elided
because no claim mentions them). -/
structure ResponseData where
  message : Option String
  error : Option String
  timeout : Option Nat
deriving DecidableEq

/-- `createErrorFromResponse(status, data, message)` (src/errors.ts):
maps an HTTP status to the corresponding error subclass; the message is
`message || data?.message || data?.error || 'An error occurred'`. -/
def createErrorFromResponse (status : Nat) (data : ResponseData)
    (message : Option String) : AISpineError :=
  let errorMessage :=
    jsStrOr message (jsStrOr data.message (jsStrOr data.error "An error occurred"))
  if status = 400 then ValidationError errorMessage
  else if status = 401 then AuthenticationError errorMessage
  else if status = 403 then AuthorizationError errorMessage
  else if status = 404 then NotFoundError errorMessage
  else if status = 408 then TimeoutError (jsNatOr data.timeout 30000)
  else if status = 429 then RateLimitError errorMessage
  else if status = 500 ∨ status = 502 ∨ status = 503 ∨ status = 504 then
    ServerError errorMessage status
  else ⟨"AISpineError", errorMessage, "UNKNOWN_ERROR", some status⟩

/-! ### Error handling and the retry loop (src/client.ts) -/

/-- The parts of an axios failure that `AISpineClient.handleError` reads:
the optional response (status and parsed body), the transport error `code`
and the error `message`. -/
structure AxiosErrorModel where
  response : Option (Nat × ResponseData)
  code : Option String
  message : String
deriving DecidableEq

/-- `AISpineClient.handleError` (src/client.ts lines 120-135): no response
plus an ECONNABORTED/ETIMEDOUT code gives a `TimeoutError` (with the
configured timeout), no response otherwise a `NetworkError`; a response is
classified by `createErrorFromResponse`. -/
def handleError (configTimeout : Nat) (e : AxiosErrorModel) : AISpineError :=
  match e.response with
  | none =>
    if e.code = some "ECONNABORTED" ∨ e.code = some "ETIMEDOUT" then
      TimeoutError configTimeout
    else NetworkError e.message
  | some (status, data) => createErrorFromResponse status data (some e.message)

/-- Success envelope returned by `executeWithRetry` (`SDKResponse`
in src/types.ts; the `headers` field is elided). -/
structure SDKResponse (T : Type) where
  data : T
  status : Nat
  statusText : String
deriving DecidableEq

/-- Outcome of one attempt of `requestFn`: either a resolved axios response
or a rejection.  The response interceptor (src/client.ts `setupInterceptors`)
rejects with the `AISpineError` produced by `handleError`, so a rejection is
always modelled as an `AISpineError` (the `instanceof` guard in
`executeWithRetry` then always takes the first branch). -/
inductive AttemptResult (T : Type)
  | success (resp : SDKResponse T)
  | failure (err : AISpineError)
deriving DecidableEq

/-- Result field of an execution outcome: a returned envelope or the thrown
final error. -/
inductive ExecResult (T : Type)
  | ok (r : SDKResponse T)
  | err (e : AISpineError)
deriving DecidableEq

/-- Observable outcome of `executeWithRetry`: the result, the number of
times `requestFn` was invoked, and the list of backoff delays slept between
consecutive attempts, in order. -/
structure ExecOutcome (T : Type) where
  result : ExecResult T
  attempts : Nat
  delays : List Nat
deriving DecidableEq

/-- The retry guard of `executeWithRetry` (src/client.ts lines 162-169):
statuses 400, 401, 403 and 404 are never retried. -/
def isNoRetryStatus (e : AISpineError) : Bool :=
  e.status == some 400 || e.status == some 401 ||
  e.status == some 403 || e.status == some 404

/-- Per-call request options (`RequestOptions` in src/types.ts; `headers`
is elided). -/
structure RequestOptions where
  timeout : Option Nat
  retries : Option Nat
deriving DecidableEq

/-- The body of the `for (let attempt = 0; attempt <= maxRetries; attempt++)`
loop of `executeWithRetry` (src/client.ts lines 144-184), re-indexed for
structural recursion by `remaining = maxRetries - attempt` (the loop's
`attempt === maxRetries` test is exactly `remaining = 0`; the loop condition
`attempt <= maxRetries` always holds since the loop starts at `attempt = 0`).
On success it returns at once; on a failure with status 400/401/403/404 it
breaks; on the last allowed attempt it breaks; otherwise it sleeps
`min(1000 * 2 ^ attempt, 10000)` ms and loops. -/
def retryLoopAux {T : Type} (requestFn : Nat → AttemptResult T)
    (attempt remaining : Nat) : ExecOutcome T :=
  match requestFn attempt with
  | .success r => { result := .ok r, attempts := 1, delays := [] }
  | .failure e =>
    if isNoRetryStatus e then { result := .err e, attempts := 1, delays := [] }
    else
      match remaining with
      | 0 => { result := .err e, attempts := 1, delays := [] }
      | remaining' + 1 =>
        let delay := min (1000 * 2 ^ attempt) 10000
        let rest := retryLoopAux requestFn (attempt + 1) remaining'
        { result := rest.result, attempts := rest.attempts + 1,
          delays := delay :: rest.delays }

/-- `AISpineClient.executeWithRetry` (src/client.ts lines 137-187):
`maxRetries = options.retries ?? this.config.retries`, then the retry loop
starting at attempt 0.  `requestFn a` is the result of the a-th invocation
of the request thunk. -/
def executeWithRetry {T : Type} (requestFn : Nat → AttemptResult T)
    (options : RequestOptions) (configRetries : Nat) : ExecOutcome T :=
  retryLoopAux requestFn 0 (nullishOr options.retries configRetries)

/-- Constructor-relevant part of the `AISpineConfig` input
(src/types.ts; `apiKey`, `baseURL`, `debug`, callbacks elided). -/
structure AISpineConfigInput where
  timeout : Option Nat
  retries : Option Nat
deriving DecidableEq

/-- The resolved process-wide configuration. -/
structure ResolvedConfig where
  timeout : Nat
  retries : Nat
deriving DecidableEq

/-- Default resolution in the `AISpineClient` constructor (src/client.ts
lines 47-55): `timeout: config.timeout || 30000`,
`retries: config.retries || 3` — JavaScript `||`, so an explicit `0` falls
through to the default. -/
def resolveConfig (c : AISpineConfigInput) : ResolvedConfig :=
  { timeout := jsNatOr c.timeout 30000, retries := jsNatOr c.retries 3 }

/-- The status-to-kind table stated by the spec, written from its words for
comparison against the classifier in the code: 400 validation, 401
authentication, 403 authorization, 404 not-found, 408 timeout, 429
rate-limit, 500/502/503/504 server, anything else unknown. -/
def specStatusKind (status : Nat) : ErrorKind :=
  if status = 400 then .validation
  else if status = 401 then .authentication
  else if status = 403 then .authorization
  else if status = 404 then .notFound
  else if status = 408 then .timeout
  else if status = 429 then .rateLimit
  else if status = 500 ∨ status = 502 ∨ status = 503 ∨ status = 504 then .server
  else .unknown

/-! ### Webhook signatures (src/webhooks.ts, class WebhookSignature) -/

/-- JavaScript strings in the webhook module are modelled as lists of
characters. -/
abbrev JsStr := List Char

namespace WebhookSignature

/-- Model of JavaScript `split` with a single-character separator. -/
def splitChar (sep : Char) : JsStr → List JsStr
  | [] => [[]]
  | c :: rest =>
    let r := splitChar sep rest
    if c = sep then [] :: r
    else
      match r with
      | h :: t => (c :: h) :: t
      | [] => [[c]]

/-- One step of the header-parsing loop in `verify` (lines 49-56): split the
element on "=", read the key at index 0 and the value at index 1 (which may
be absent — JavaScript `undefined`, modelled by `none`); a key "t" assigns
the timestamp variable, a key "v1" pushes the value onto the signatures
array.  The accumulator is (timestamp variable, signatures array). -/
def parseElem (acc : Option JsStr × List (Option JsStr)) (elem : JsStr) :
    Option JsStr × List (Option JsStr) :=
  let parts := splitChar '=' elem
  let key := parts.headD []
  let value := parts[1]?
  if key = ['t'] then (value, acc.2)
  else if key = ['v', '1'] then (acc.1, acc.2 ++ [value])
  else acc

/-- The header-parsing loop of `verify`: fold `parseElem` over the
comma-separated elements of the received signature header. -/
def parseHeader (s : JsStr) : Option JsStr × List (Option JsStr) :=
  (splitChar ',' s).foldl parseElem (none, [])

/-- Digits at the front of a character list. -/
def leadingDigits (cs : List Char) : List Char := cs.takeWhile Char.isDigit

/-- Numeric value of a digit list, most significant first. -/
def digitsVal (ds : List Char) : Nat :=
  ds.foldl (fun a c => 10 * a + (c.toNat - 48)) 0

/-- Model of JavaScript `parseInt(s, 10)`: an optional minus sign followed
by the longest digit run; `none` models `NaN`.  (Leading whitespace and an
explicit plus sign are not modelled; no concrete input here uses them.) -/
def jsParseInt (cs : JsStr) : Option Int :=
  match cs with
  | [] => none
  | c :: rest =>
    if c = '-' then
      if (leadingDigits rest).isEmpty then none
      else some (-(digitsVal (leadingDigits rest) : Int))
    else
      if (leadingDigits (c :: rest)).isEmpty then none
      else some ((digitsVal (leadingDigits (c :: rest)) : Int))

/-- Value of a hexadecimal digit character, when it is one. -/
def hexDigitVal (c : Char) : Option Nat :=
  if '0' ≤ c ∧ c ≤ '9' then some (c.toNat - 48)
  else if 'a' ≤ c ∧ c ≤ 'f' then some (c.toNat - 87)
  else if 'A' ≤ c ∧ c ≤ 'F' then some (c.toNat - 55)
  else none

/-- Model of Node Buffer hex decoding: decode pairs of hex digits, stopping
at the first invalid or incomplete pair. -/
def hexDecode : JsStr → List Nat
  | c1 :: c2 :: rest =>
    match hexDigitVal c1, hexDigitVal c2 with
    | some h, some l => (16 * h + l) :: hexDecode rest
    | _, _ => []
  | _ => []

/-- Exceptions the comparison step of `verify` can throw, caught by the
surrounding try/catch: decoding an undefined signature entry throws a
TypeError, and the constant-time comparison throws a RangeError when the
byte lengths differ. -/
inductive CompareError
  | typeErrorUndefined
  | rangeErrorLength
deriving DecidableEq

/-- Model of `crypto.timingSafeEqual`: throws when the lengths differ,
otherwise reports byte equality (the timing behaviour itself is not
modelled, only the result). -/
def timingSafeEqual (a b : List Nat) : Except CompareError Bool :=
  if a.length = b.length then .ok (decide (a = b)) else .error .rangeErrorLength

/-- Model of the `signatures.some(...)` scan of `verify` (lines 76-81):
left-to-right, short-circuiting on the first match; decoding an undefined
entry or a length mismatch throws, aborting the whole scan. -/
def anyMatches (expected : JsStr) : List (Option JsStr) → Except CompareError Bool
  | [] => .ok false
  | none :: _ => .error .typeErrorUndefined
  | some sig :: rest =>
    match timingSafeEqual (hexDecode sig) (hexDecode expected) with
    | .error e => .error e
    | .ok true => .ok true
    | .ok false => anyMatches expected rest

/-- Error reported by `verify`; each constructor stands for the literal
message string in the source: "Missing timestamp in signature",
"Timestamp outside tolerance window", and the catch-all
"Signature verification failed: ..." carrying the thrown exception. -/
inductive VerifyError
  | missingTimestamp
  | timestampOutsideTolerance
  | verificationFailed (e : CompareError)
deriving DecidableEq

/-- Result shape of `verify` (`WebhookVerificationResult` in src/types.ts). -/
structure WebhookVerificationResult where
  valid : Bool
  error : Option VerifyError
deriving DecidableEq

/-- `WebhookSignature.generate` (lines 24-33): the header
"t=timestamp,v1=digest" where the digest is HMAC-SHA256 of
"timestamp.payload" keyed by the secret, hex encoded.  The HMAC is taken as
a parameter `hmac : key → message → hex digest`; no claim depends on the
digest internals. -/
def generate (hmac : JsStr → JsStr → JsStr) (secret timestamp payload : JsStr) : JsStr :=
  ['t', '='] ++ timestamp ++ [','] ++ ['v', '1', '='] ++
    hmac secret (timestamp ++ ['.'] ++ payload)

/-- `WebhookSignature.verify` (lines 38-90).  Parse the header; a missing
(or empty, hence falsy) timestamp fails with the missing-timestamp error;
then the staleness check `now - timestamp * 1000 > tolerance * 1000` — note
the one-sided comparison, and that a NaN timestamp compares false and so
passes; then recompute the expected digest and scan the v1 values with the
constant-time comparison, any thrown exception being caught into the
verification-failed result. -/
def verify (hmac : JsStr → JsStr → JsStr) (receivedSignature payload secret : JsStr)
    (tolerance now : Int) : WebhookVerificationResult :=
  let p := parseHeader receivedSignature
  match p.1 with
  | none => ⟨false, some .missingTimestamp⟩
  | some ts =>
    if ts = [] then ⟨false, some .missingTimestamp⟩
    else
      let stale :=
        match jsParseInt ts with
        | none => false
        | some v => decide (now - v * 1000 > tolerance * 1000)
      if stale then ⟨false, some .timestampOutsideTolerance⟩
      else
        match anyMatches (hmac secret (ts ++ ['.'] ++ payload)) p.2 with
        | .ok b => ⟨b, none⟩
        | .error e => ⟨false, some (.verificationFailed e)⟩

end WebhookSignature

/-- Concrete stand-in digest function for witnesses and counterexamples: a
fixed two-character hex output.  (The staleness behaviour of `verify` is
independent of the digest function.) -/
def hmacToy : JsStr → JsStr → JsStr := fun _ _ => ['a', 'b']

/-! ### Webhook event handler (src/webhooks.ts, class WebhookEventHandler) -/

/-- Event types are strings; the wildcard type is "*". -/
abbrev EventType := String

/-- The handler registry: a JavaScript Map from event type to a Set of
handlers, modelled as an insertion-ordered association list of
insertion-ordered duplicate-free lists of handler identifiers. -/
abbrev Registry := List (EventType × List Nat)

namespace WebhookEventHandler

/-- Registry lookup, i.e. Map get: first entry with the given key. -/
def lookupReg : Registry → EventType → Option (List Nat)
  | [], _ => none
  | (t', hs) :: rest, t => if t' = t then some hs else lookupReg rest t

/-- `WebhookEventHandler.on` (lines 102-107) — named `register` here since
`on` is notation in Mathlib: create the Set on first use, then Set add — a
no-op when the handler is already present. -/
def register : Registry → EventType → Nat → Registry
  | [], t, h => [(t, [h])]
  | (t', hs) :: rest, t, h =>
    if t' = t then (t', if h ∈ hs then hs else hs ++ [h]) :: rest
    else (t', hs) :: register rest t h

/-- `WebhookEventHandler.off` (lines 112-120): Set delete of the handler,
then drop the event type entry entirely when its set became empty. -/
def off : Registry → EventType → Nat → Registry
  | [], _, _ => []
  | (t', hs) :: rest, t, h =>
    if t' = t then
      let hs' := hs.filter (fun x => decide (x ≠ h))
      if hs' = [] then rest else (t', hs') :: rest
    else (t', hs) :: off rest t h

/-- `WebhookEventHandler.getRegisteredEvents` (lines 154-156): the Map keys. -/
def getRegisteredEvents (reg : Registry) : List EventType := reg.map Prod.fst

/-- One register/unregister operation. -/
inductive RegOp
  | register (t : EventType) (h : Nat)
  | unregister (t : EventType) (h : Nat)
deriving DecidableEq

/-- Apply a sequence of on/off operations to a registry. -/
def applyOps (ops : List RegOp) (reg : Registry) : Registry :=
  ops.foldl
    (fun r op =>
      match op with
      | .register t h => register r t h
      | .unregister t h => off r t h)
    reg

/-- Behaviour of a handler when invoked: return or resolve normally, return
a promise that rejects, or throw synchronously. -/
inductive HBehavior
  | ok
  | rejects
  | throwsSync
deriving DecidableEq

/-- Events of the dispatch trace: a handler invocation is launched, or a
whole group is jointly awaited (the `await Promise.all` of that group
settling). -/
inductive EmitEv
  | launch (h : Nat)
  | awaitAll
deriving DecidableEq

/-- The synchronous `.map` pass over a group in `emit`, which builds
`Promise.resolve(handler(event)).catch(...)` for each handler: handlers are
invoked (launched) in order; a handler that throws synchronously makes the
`.map` callback throw, so the handlers after it are never invoked.  Returns
the launched handlers and whether the pass aborted with a throw. -/
def launchPass (beh : Nat → HBehavior) : List Nat → List Nat × Bool
  | [] => ([], false)
  | h :: rest =>
    if beh h = .throwsSync then ([h], true)
    else
      let r := launchPass beh rest
      (h :: r.1, r.2)

/-- Handlers whose rejected promise is caught by the per-handler catch and
logged via `console.error`. -/
def loggedOf (beh : Nat → HBehavior) (hs : List Nat) : List Nat :=
  hs.filter (fun h => decide (beh h = .rejects))

/-- Outcome of processing one handler group inside `emit`. -/
structure GroupOutcome where
  trace : List EmitEv
  aborted : Bool
  logged : List Nat
deriving DecidableEq

/-- Process one optional group of `emit`: an absent group is skipped
entirely; otherwise all its handlers are launched by the synchronous `.map`
pass and then jointly awaited — unless that pass threw, in which case the
`Promise.all` is never reached and the group aborts. -/
def runGroup (beh : Nat → HBehavior) : Option (List Nat) → GroupOutcome
  | none => ⟨[], false, []⟩
  | some g =>
    let p := launchPass beh g
    ⟨p.1.map EmitEv.launch ++ (if p.2 then [] else [EmitEv.awaitAll]),
     p.2, loggedOf beh p.1⟩

/-- Observable outcome of `emit`: the launch/await trace, whether the
promise returned by `emit` rejects, and which handler failures get logged. -/
structure EmitOutcome where
  trace : List EmitEv
  rejects : Bool
  logged : List Nat
deriving DecidableEq

/-- `WebhookEventHandler.emit(event)` (lines 125-149): run the group
registered under the exact event type and await it, then — only if that did
not throw — run and await the group registered under the wildcard "*".
Per-handler rejections are caught and logged; a synchronous throw aborts
`emit` with a rejection.  Only the `event.event` type field matters to
`emit`, so the event is modelled by it. -/
def emit (reg : Registry) (beh : Nat → HBehavior) (event : EventType) : EmitOutcome :=
  let s := runGroup beh (lookupReg reg event)
  if s.aborted then ⟨s.trace, true, s.logged⟩
  else
    let w := runGroup beh (lookupReg reg "*")
    ⟨s.trace ++ w.trace, w.aborted, s.logged ++ w.logged⟩

/-- Expected trace contribution of one optional group when no handler in it
throws synchronously. -/
def optTrace : Option (List Nat) → List EmitEv
  | none => []
  | some g => g.map EmitEv.launch ++ [EmitEv.awaitAll]

/-- Logged rejections contributed by an optional group. -/
def optLogged (beh : Nat → HBehavior) : Option (List Nat) → List Nat
  | none => []
  | some g => loggedOf beh g

/-- Number of times handler `h` is launched in a trace. -/
def countLaunches (h : Nat) : List EmitEv → Nat
  | [] => 0
  | .launch h' :: rest => (if h' = h then 1 else 0) + countLaunches h rest
  | .awaitAll :: rest => countLaunches h rest

/-- Whether every launch in the trace precedes every await — the shape
claim C7 asserts of the whole trace of one emit call. -/
def allLaunchedFirst : List EmitEv → Bool
  | [] => true
  | .launch _ :: rest => allLaunchedFirst rest
  | .awaitAll :: rest => rest.all (fun e => decide (e = EmitEv.awaitAll))

/-- The behaviour assignment in which every handler resolves normally. -/
def behOk : Nat → HBehavior := fun _ => .ok

end WebhookEventHandler

/-! ## Theorems settling the claims -/

/-! ### Retry executor -/

/-- If every attempt rejects with the same retryable error, the loop uses
the whole budget: starting at `attempt` with `remaining` retries left it
performs `remaining + 1` attempts, sleeping the exponential backoff delays,
and surfaces the error. -/
theorem retryLoopAux_allFail {T : Type} (requestFn : Nat → AttemptResult T)
    (e : AISpineError) (hf : ∀ a, requestFn a = .failure e)
    (hnr : isNoRetryStatus e = false) :
    ∀ remaining attempt, retryLoopAux requestFn attempt remaining =
      { result := .err e, attempts := remaining + 1,
        delays := (List.range' attempt remaining).map
          (fun a => min (1000 * 2 ^ a) 10000) } := by
  intro remaining
  induction remaining with
  | zero => intro attempt; simp [retryLoopAux, hf, hnr]
  | succ r ih =>
    intro attempt
    simp [retryLoopAux, hf, hnr, ih (attempt + 1), List.range']

/-- C1: for a request whose every attempt fails with HTTP 500, 502, 503 or
504, `executeWithRetry` performs exactly `maxRetries + 1` attempts (with
`maxRetries = options.retries ?? configRetries`), sleeping
`min (1000 * 2 ^ attempt) 10000` milliseconds between consecutive attempts,
and throws the classified `ServerError` carrying that HTTP status (spec
kind: server). -/
theorem executeWithRetry_server_error_exhausts_budget {T : Type}
    (requestFn : Nat → AttemptResult T) (options : RequestOptions)
    (configRetries s : Nat) (data : ResponseData) (msg : Option String)
    (hs : s = 500 ∨ s = 502 ∨ s = 503 ∨ s = 504)
    (hf : ∀ a, requestFn a = .failure (createErrorFromResponse s data msg)) :
    executeWithRetry requestFn options configRetries =
      { result := .err (createErrorFromResponse s data msg),
        attempts := nullishOr options.retries configRetries + 1,
        delays := (List.range (nullishOr options.retries configRetries)).map
          (fun a => min (1000 * 2 ^ a) 10000) } ∧
    (createErrorFromResponse s data msg).name = "ServerError" ∧
    (createErrorFromResponse s data msg).status = some s ∧
    kindOf (createErrorFromResponse s data msg) = ErrorKind.server := by
  have hE : createErrorFromResponse s data msg =
      ServerError
        (jsStrOr msg (jsStrOr data.message (jsStrOr data.error "An error occurred")))
        s := by
    rcases hs with h | h | h | h <;> subst h <;> rfl
  have hnr : isNoRetryStatus (createErrorFromResponse s data msg) = false := by
    rw [hE]; rcases hs with h | h | h | h <;> subst h <;> rfl
  refine ⟨?_, ?_, ?_, ?_⟩
  · rw [executeWithRetry, retryLoopAux_allFail requestFn _ hf hnr,
      List.range_eq_range']
  · rw [hE]; rfl
  · rw [hE]; rfl
  · rw [hE]; rfl

/-- Witness for C1: budget 2 retries (per-call), all attempts return 503:
three attempts, delays 1000 then 2000 ms, final error is the ServerError. -/
theorem executeWithRetry_server_error_exhausts_budget_witness :
    executeWithRetry
        (fun _ => AttemptResult.failure
          (createErrorFromResponse 503 ⟨none, none, none⟩ (some "boom"))
          : Nat → AttemptResult Unit)
        ⟨none, some 2⟩ 3 =
      { result := .err (createErrorFromResponse 503 ⟨none, none, none⟩ (some "boom")),
        attempts := 3, delays := [1000, 2000] } := by
  have h := (executeWithRetry_server_error_exhausts_budget
      (fun _ => AttemptResult.failure
        (createErrorFromResponse 503 ⟨none, none, none⟩ (some "boom"))
        : Nat → AttemptResult Unit)
      ⟨none, some 2⟩ 3 503 ⟨none, none, none⟩ (some "boom")
      (by decide) (fun a => rfl)).1
  exact h.trans (by decide)

/-- C2: a first attempt failing with HTTP 400, 401, 403 or 404 gives exactly
one attempt — no delay, no retry, whatever the remaining budget — and the
classified error of the respective kind (validation, authentication,
authorization, not-found) is thrown. -/
theorem executeWithRetry_terminal_4xx_single_attempt {T : Type}
    (requestFn : Nat → AttemptResult T) (options : RequestOptions)
    (configRetries s : Nat) (data : ResponseData) (msg : Option String)
    (hs : s = 400 ∨ s = 401 ∨ s = 403 ∨ s = 404)
    (hf : requestFn 0 = .failure (createErrorFromResponse s data msg)) :
    executeWithRetry requestFn options configRetries =
      { result := .err (createErrorFromResponse s data msg),
        attempts := 1, delays := [] } ∧
    kindOf (createErrorFromResponse s data msg) = specStatusKind s := by
  have hnr : isNoRetryStatus (createErrorFromResponse s data msg) = true := by
    rcases hs with h | h | h | h <;> subst h <;> rfl
  constructor
  · rw [executeWithRetry]
    rcases hm : nullishOr options.retries configRetries with _ | m <;>
      simp [retryLoopAux, hf, hnr]
  · rcases hs with h | h | h | h <;> subst h <;> rfl

/-- Witness for C2: a 404 on the first attempt with a large budget (5)
still gives a single attempt, no delays, and a not-found kind. -/
theorem executeWithRetry_terminal_4xx_single_attempt_witness :
    executeWithRetry
        (fun _ => AttemptResult.failure
          (createErrorFromResponse 404 ⟨none, none, none⟩ (some "nope"))
          : Nat → AttemptResult Unit)
        ⟨none, none⟩ 5 =
      { result := .err (createErrorFromResponse 404 ⟨none, none, none⟩ (some "nope")),
        attempts := 1, delays := [] } ∧
    kindOf (createErrorFromResponse 404 ⟨none, none, none⟩ (some "nope")) =
      ErrorKind.notFound :=
  executeWithRetry_terminal_4xx_single_attempt
    (fun _ => AttemptResult.failure
      (createErrorFromResponse 404 ⟨none, none, none⟩ (some "nope"))
      : Nat → AttemptResult Unit)
    ⟨none, none⟩ 5 404 ⟨none, none, none⟩ (some "nope")
    (by decide) rfl

/-- C9: a constructor-level `retries: 0` or `timeout: 0` is falsy under the
`||` defaulting and silently becomes 3 and 30000 respectively, whereas a
per-call `retries: 0` goes through `??` and is honoured: one single attempt,
whatever the process-wide configured retries. -/
theorem config_zero_falsy_but_percall_zero_honoured :
    (resolveConfig ⟨some 0, some 0⟩).timeout = 30000 ∧
    (resolveConfig ⟨some 0, some 0⟩).retries = 3 ∧
    ∀ (requestFn : Nat → AttemptResult Unit) (configRetries : Nat),
      (executeWithRetry requestFn ⟨none, some 0⟩ configRetries).attempts = 1 := by
  refine ⟨rfl, rfl, fun requestFn configRetries => ?_⟩
  rw [executeWithRetry]
  show (retryLoopAux requestFn 0 0).attempts = 1
  rcases h : requestFn 0 with r | e
  · simp [retryLoopAux, h]
  · rcases hb : isNoRetryStatus e <;> simp [retryLoopAux, h, hb]

/-- Witness for C9 (the theorem is hypothesis-free; instantiated at an
always-500 request with configured retries 3): per-call zero retries means
one attempt. -/
theorem config_zero_falsy_but_percall_zero_honoured_witness :
    (executeWithRetry
        (fun _ => AttemptResult.failure
          (createErrorFromResponse 500 ⟨none, none, none⟩ (some "x"))
          : Nat → AttemptResult Unit)
        ⟨none, some 0⟩ 3).attempts = 1 :=
  config_zero_falsy_but_percall_zero_honoured.2.2
    (fun _ => AttemptResult.failure
      (createErrorFromResponse 500 ⟨none, none, none⟩ (some "x"))) 3

/-! ### Error classification -/

/-- The classifier agrees with the status-to-kind table of the spec on
every response status. -/
theorem kindOf_createErrorFromResponse (s : Nat) (data : ResponseData)
    (msg : Option String) :
    kindOf (createErrorFromResponse s data msg) = specStatusKind s := by
  simp only [createErrorFromResponse, specStatusKind]
  split_ifs <;> rfl

/-- Every classified response error whose kind has a canonical status
carries that status. -/
theorem createErrorFromResponse_canonical (s : Nat) (data : ResponseData)
    (msg : Option String) (c : Nat)
    (h : canonicalStatus (kindOf (createErrorFromResponse s data msg)) = some c) :
    (createErrorFromResponse s data msg).status = some c := by
  simp only [createErrorFromResponse] at h ⊢
  split_ifs at h ⊢ <;> first | exact h | exact Option.noConfusion h

/-- C3: error classification is the stated total function — no response
with an ECONNABORTED/ETIMEDOUT code gives kind timeout, no response
otherwise kind network, a response maps its status through the table
400 validation / 401 authentication / 403 authorization / 404 not-found /
408 timeout / 429 rate-limit / 500,502,503,504 server / otherwise unknown —
and every produced error whose kind has a canonical status carries it as
httpStatus. -/
theorem handleError_total_classification (configTimeout : Nat) (e : AxiosErrorModel) :
    (e.response = none →
      ((e.code = some "ECONNABORTED" ∨ e.code = some "ETIMEDOUT") →
        kindOf (handleError configTimeout e) = ErrorKind.timeout) ∧
      (¬(e.code = some "ECONNABORTED" ∨ e.code = some "ETIMEDOUT") →
        kindOf (handleError configTimeout e) = ErrorKind.network)) ∧
    (∀ s data, e.response = some (s, data) →
      kindOf (handleError configTimeout e) = specStatusKind s) ∧
    (∀ c, canonicalStatus (kindOf (handleError configTimeout e)) = some c →
      (handleError configTimeout e).status = some c) := by
  refine ⟨fun hn => ⟨fun hc => ?_, fun hc => ?_⟩,
    fun s data hr => ?_, fun c hc => ?_⟩
  · simp only [handleError, hn]
    rw [if_pos hc]; rfl
  · simp only [handleError, hn]
    rw [if_neg hc]; rfl
  · simp only [handleError, hr]
    exact kindOf_createErrorFromResponse s data (some e.message)
  · rcases he : e.response with _ | ⟨s, data⟩
    · simp only [handleError, he] at hc ⊢
      split_ifs at hc ⊢ <;> first | exact hc | exact Option.noConfusion hc
    · simp only [handleError, he] at hc ⊢
      exact createErrorFromResponse_canonical s data (some e.message) c hc

/-- Witness for C3: a 429 response classifies as rate-limit and carries
httpStatus 429; a response-less ETIMEDOUT failure classifies as timeout. -/
theorem handleError_total_classification_witness :
    kindOf (handleError 30000 ⟨some (429, ⟨none, none, none⟩), none, "m"⟩) =
      ErrorKind.rateLimit ∧
    (handleError 30000 ⟨some (429, ⟨none, none, none⟩), none, "m"⟩).status =
      some 429 ∧
    kindOf (handleError 30000 ⟨none, some "ETIMEDOUT", "m"⟩) =
      ErrorKind.timeout := by
  refine ⟨?_, ?_, ?_⟩
  · exact (handleError_total_classification 30000
      ⟨some (429, ⟨none, none, none⟩), none, "m"⟩).2.1 429 ⟨none, none, none⟩ rfl
  · exact (handleError_total_classification 30000
      ⟨some (429, ⟨none, none, none⟩), none, "m"⟩).2.2 429 (by decide)
  · exact ((handleError_total_classification 30000
      ⟨none, some "ETIMEDOUT", "m"⟩).1 rfl).1 (by decide)

/-! ### Webhook signature verification -/

/-- Splitting a list that does not contain the separator yields a single
element. -/
theorem splitChar_no_sep (sep : Char) (l : JsStr) (h : ∀ c ∈ l, c ≠ sep) :
    WebhookSignature.splitChar sep l = [l] := by
  induction l with
  | nil => rfl
  | cons c rest ih =>
    have hc : ¬ c = sep := h c (by simp)
    have hr := ih (fun x hx => h x (by simp [hx]))
    simp [WebhookSignature.splitChar, hc, hr]

/-- Splitting on the first occurrence of the separator peels off the
prefix before it. -/
theorem splitChar_append_sep (sep : Char) (a b : JsStr) (h : ∀ c ∈ a, c ≠ sep) :
    WebhookSignature.splitChar sep (a ++ sep :: b) =
      a :: WebhookSignature.splitChar sep b := by
  induction a with
  | nil => simp [WebhookSignature.splitChar]
  | cons c rest ih =>
    have hc : ¬ c = sep := h c (by simp)
    have hr := ih (fun x hx => h x (by simp [hx]))
    simp [WebhookSignature.splitChar, hc, hr]

/-- A decimal digit is neither a comma nor an equals sign. -/
theorem digit_ne_sep {c : Char} (h : Char.isDigit c) : c ≠ ',' ∧ c ≠ '=' := by
  constructor <;> rintro rfl <;> exact absurd h (by decide)

/-- Parsing the header produced by `generate`: the timestamp component and
exactly one v1 component (the digest), provided the timestamp is made of
digits and the digest contains neither commas nor equals signs (true of any
hex digest). -/
theorem parseHeader_generate (hmac : JsStr → JsStr → JsStr)
    (secret ts payload : JsStr)
    (hts : ∀ c ∈ ts, Char.isDigit c)
    (hsig : ∀ c ∈ hmac secret (ts ++ ['.'] ++ payload), c ≠ ',' ∧ c ≠ '=') :
    WebhookSignature.parseHeader (WebhookSignature.generate hmac secret ts payload) =
      (some ts, [some (hmac secret (ts ++ ['.'] ++ payload))]) := by
  have hsplit1 : WebhookSignature.splitChar ','
      (WebhookSignature.generate hmac secret ts payload) =
      [('t' :: '=' :: ts),
       ('v' :: '1' :: '=' :: hmac secret (ts ++ ['.'] ++ payload))] := by
    have hshape : WebhookSignature.generate hmac secret ts payload =
        ('t' :: '=' :: ts) ++ ',' ::
          ('v' :: '1' :: '=' :: hmac secret (ts ++ ['.'] ++ payload)) := by
      simp [WebhookSignature.generate]
    rw [hshape, splitChar_append_sep ',' _ _ ?ha, splitChar_no_sep ',' _ ?hb]
    case ha =>
      intro c hc
      simp only [List.mem_cons] at hc
      rcases hc with rfl | rfl | hc
      · decide
      · decide
      · exact (digit_ne_sep (hts c hc)).1
    case hb =>
      intro c hc
      simp only [List.mem_cons] at hc
      rcases hc with rfl | rfl | rfl | hc
      · decide
      · decide
      · decide
      · exact (hsig c hc).1
  have hparts1 : WebhookSignature.splitChar '=' ('t' :: '=' :: ts) =
      [['t'], ts] := by
    have hshape : ('t' :: '=' :: ts) = ['t'] ++ '=' :: ts := rfl
    rw [hshape, splitChar_append_sep '=' _ _ ?hta,
      splitChar_no_sep '=' ts (fun c hc => (digit_ne_sep (hts c hc)).2)]
    case hta =>
      intro c hc
      simp only [List.mem_cons, List.not_mem_nil, or_false] at hc
      subst hc
      decide
  have hparts2 : WebhookSignature.splitChar '='
      ('v' :: '1' :: '=' :: hmac secret (ts ++ ['.'] ++ payload)) =
      [['v', '1'], hmac secret (ts ++ ['.'] ++ payload)] := by
    have hshape : ('v' :: '1' :: '=' :: hmac secret (ts ++ ['.'] ++ payload)) =
        ['v', '1'] ++ '=' :: hmac secret (ts ++ ['.'] ++ payload) := rfl
    rw [hshape, splitChar_append_sep '=' _ _ ?hva,
      splitChar_no_sep '=' _ (fun c hc => (hsig c hc).2)]
    case hva =>
      intro c hc
      simp only [List.mem_cons, List.not_mem_nil, or_false] at hc
      rcases hc with rfl | rfl
      · decide
      · decide
  simp only [WebhookSignature.parseHeader]
  rw [hsplit1]
  simp only [List.foldl_cons, List.foldl_nil, WebhookSignature.parseElem]
  rw [hparts1, hparts2]
  simp

/-- parseInt on a nonempty all-digit string yields its decimal value. -/
theorem jsParseInt_digits (ts : JsStr) (hne : ts ≠ [])
    (hts : ∀ c ∈ ts, Char.isDigit c) :
    WebhookSignature.jsParseInt ts = some ((WebhookSignature.digitsVal ts : Nat) : Int) := by
  rcases ts with _ | ⟨c, rest⟩
  · exact absurd rfl hne
  · have hc : Char.isDigit c := hts c (by simp)
    have hcm : ¬ c = '-' := by rintro rfl; exact absurd hc (by decide)
    have hld : WebhookSignature.leadingDigits (c :: rest) = c :: rest := by
      simp only [WebhookSignature.leadingDigits, List.takeWhile_eq_self_iff]
      exact hts
    simp [WebhookSignature.jsParseInt, hcm, hld]

/-- C4 (amended): the timestamp-tolerance check of `verify` is one-sided —
with a parsed timestamp value v, the verification fails with the
timestamp-outside-tolerance error exactly when `now - v * 1000` exceeds
`tolerance * 1000` (so a 400 s old timestamp fails a 300 s tolerance), and
otherwise — including any future-dated timestamp — the result never carries
that error. -/
theorem verify_staleness_one_sided (hmac : JsStr → JsStr → JsStr)
    (header payload secret : JsStr) (tolerance now : Int)
    (ts : JsStr) (v : Int)
    (hp : (WebhookSignature.parseHeader header).1 = some ts)
    (hne : ¬ ts = [])
    (hv : WebhookSignature.jsParseInt ts = some v) :
    (now - v * 1000 > tolerance * 1000 →
      WebhookSignature.verify hmac header payload secret tolerance now =
        ⟨false, some .timestampOutsideTolerance⟩) ∧
    (¬(now - v * 1000 > tolerance * 1000) →
      (WebhookSignature.verify hmac header payload secret tolerance now).error ≠
        some WebhookSignature.VerifyError.timestampOutsideTolerance) := by
  constructor
  · intro hstale
    simp [WebhookSignature.verify, hp, hv, hne, hstale]
  · intro hfresh
    simp only [WebhookSignature.verify, hp]
    rw [if_neg hne, hv]
    simp only [hfresh, decide_eq_true_eq, if_neg, decide_eq_false hfresh,
      Bool.false_eq_true, if_false]
    rcases WebhookSignature.anyMatches
        (hmac secret (ts ++ ['.'] ++ payload))
        (WebhookSignature.parseHeader header).2 with e | b <;> simp

/-- Witness for C4 (amended): under a 300 s tolerance at
now = 10^12 ms, a header generated with timestamp 999999600 (400 s old)
fails with the tolerance error, while one with timestamp 999999900
(100 s old) is not rejected on timestamp grounds. -/
theorem verify_staleness_one_sided_witness :
    WebhookSignature.verify hmacToy
        (WebhookSignature.generate hmacToy ['s']
          ['9', '9', '9', '9', '9', '9', '6', '0', '0'] ['p'])
        ['p'] ['s'] 300 1000000000000 =
      ⟨false, some .timestampOutsideTolerance⟩ ∧
    (WebhookSignature.verify hmacToy
        (WebhookSignature.generate hmacToy ['s']
          ['9', '9', '9', '9', '9', '9', '9', '0', '0'] ['p'])
        ['p'] ['s'] 300 1000000000000).error ≠
      some WebhookSignature.VerifyError.timestampOutsideTolerance := by
  constructor
  · exact (verify_staleness_one_sided hmacToy _ ['p'] ['s'] 300 1000000000000
      ['9', '9', '9', '9', '9', '9', '6', '0', '0'] 999999600
      (by decide) (by decide) (by decide)).1 (by decide)
  · exact (verify_staleness_one_sided hmacToy _ ['p'] ['s'] 300 1000000000000
      ['9', '9', '9', '9', '9', '9', '9', '0', '0'] 999999900
      (by decide) (by decide) (by decide)).2 (by decide)

/-- C4 counterexample: a timestamp 700 s in the future under a 300 s
tolerance — outside the claimed absolute-value window — is not rejected:
verification of a generated header succeeds outright, instead of failing
with the timestamp-outside-tolerance error the claim requires. -/
theorem verify_future_timestamp_counterexample :
    ((1000000000000 : Int) - 1000000700 * 1000).natAbs > 300 * 1000 ∧
    WebhookSignature.verify hmacToy
        (WebhookSignature.generate hmacToy ['s']
          ['1', '0', '0', '0', '0', '0', '0', '7', '0', '0'] ['p'])
        ['p'] ['s'] 300 1000000000000 =
      ⟨true, none⟩ := by
  constructor
  · decide
  · decide

/-- C5: signature round trip — verifying the header produced by `generate`
against the same payload and secret succeeds whenever now is within the
tolerance window of the (digit string) timestamp; the digest hypothesis
says only that the digest contains no comma or equals sign, true of any
hex-encoded HMAC output. -/
theorem verify_generate_roundtrip (hmac : JsStr → JsStr → JsStr)
    (secret ts payload : JsStr) (tolerance now : Int)
    (hne : ¬ ts = [])
    (hts : ∀ c ∈ ts, Char.isDigit c)
    (hsig : ∀ c ∈ hmac secret (ts ++ ['.'] ++ payload), c ≠ ',' ∧ c ≠ '=')
    (hwin : now - (WebhookSignature.digitsVal ts : Int) * 1000 ≤ tolerance * 1000) :
    WebhookSignature.verify hmac
        (WebhookSignature.generate hmac secret ts payload)
        payload secret tolerance now = ⟨true, none⟩ := by
  have hp := parseHeader_generate hmac secret ts payload hts hsig
  have hv := jsParseInt_digits ts hne hts
  have hfresh : ¬ (now - (WebhookSignature.digitsVal ts : Int) * 1000 >
      tolerance * 1000) := not_lt.mpr hwin
  simp only [WebhookSignature.verify, hp]
  rw [if_neg hne, hv]
  simp only [decide_eq_false hfresh, Bool.false_eq_true, if_false]
  simp [WebhookSignature.anyMatches, WebhookSignature.timingSafeEqual]

/-- Witness for C5: round trip at timestamp 1000000000, payload p, secret s,
tolerance 300, now = 10^12 ms (now exactly equals the timestamp). -/
theorem verify_generate_roundtrip_witness :
    WebhookSignature.verify hmacToy
        (WebhookSignature.generate hmacToy ['s']
          ['1', '0', '0', '0', '0', '0', '0', '0', '0', '0'] ['p'])
        ['p'] ['s'] 300 1000000000000 = ⟨true, none⟩ :=
  verify_generate_roundtrip hmacToy ['s']
    ['1', '0', '0', '0', '0', '0', '0', '0', '0', '0'] ['p'] 300 1000000000000
    (by decide) (by decide) (by decide) (by decide)

/-! ### Webhook event dispatch and registry -/

open WebhookEventHandler

/-- A group none of whose handlers throws synchronously is launched in
full, without aborting. -/
theorem launchPass_no_throw (beh : Nat → HBehavior) (g : List Nat)
    (h : ∀ x ∈ g, beh x ≠ .throwsSync) :
    launchPass beh g = (g, false) := by
  induction g with
  | nil => rfl
  | cons x rest ih =>
    have hx : ¬ beh x = .throwsSync := h x (by simp)
    have hr := ih (fun y hy => h y (by simp [hy]))
    simp [launchPass, hx, hr]

/-- Running a group none of whose handlers throws synchronously: all
handlers launched, then the group awaited; rejections logged. -/
theorem runGroup_no_throw (beh : Nat → HBehavior) (g? : Option (List Nat))
    (h : ∀ x ∈ g?.getD [], beh x ≠ .throwsSync) :
    runGroup beh g? = ⟨optTrace g?, false, optLogged beh g?⟩ := by
  rcases g? with _ | g
  · rfl
  · rw [runGroup, launchPass_no_throw beh g (by simpa using h)]
    simp [optTrace, optLogged]

/-- When no matching handler throws synchronously, `emit` runs the specific
group then the wildcard group, resolves, and logs exactly the rejecting
handlers of both groups. -/
theorem emit_no_throw (reg : Registry) (beh : Nat → HBehavior) (event : EventType)
    (hs : ∀ x ∈ (lookupReg reg event).getD [], beh x ≠ .throwsSync)
    (hw : ∀ x ∈ (lookupReg reg "*").getD [], beh x ≠ .throwsSync) :
    emit reg beh event =
      ⟨optTrace (lookupReg reg event) ++ optTrace (lookupReg reg "*"),
       false,
       optLogged beh (lookupReg reg event) ++ optLogged beh (lookupReg reg "*")⟩ := by
  rw [emit, runGroup_no_throw beh _ hs, runGroup_no_throw beh _ hw]
  simp

/-- A handler of a present group appears as a launch in that group's trace. -/
theorem launch_mem_optTrace {g? : Option (List Nat)} {h : Nat}
    (hh : h ∈ g?.getD []) : EmitEv.launch h ∈ optTrace g? := by
  rcases g? with _ | g
  · simp at hh
  · simp only [Option.getD] at hh
    simp only [optTrace, List.mem_append, List.mem_map]
    exact Or.inl ⟨h, hh, rfl⟩

/-- C6 (amended): when no matching handler throws synchronously — so
failing handlers fail by returning a rejecting promise — `emit` resolves
without rejecting, every handler registered for the event (specific or
wildcard) is launched, and the rejecting handlers are reported exactly via
the log.  (A synchronously throwing handler instead aborts the launch pass:
see the counterexample.) -/
theorem emit_isolates_rejections (reg : Registry) (beh : Nat → HBehavior)
    (event : EventType)
    (hs : ∀ x ∈ (lookupReg reg event).getD [], beh x ≠ .throwsSync)
    (hw : ∀ x ∈ (lookupReg reg "*").getD [], beh x ≠ .throwsSync) :
    (emit reg beh event).rejects = false ∧
    (∀ h ∈ (lookupReg reg event).getD [],
      EmitEv.launch h ∈ (emit reg beh event).trace) ∧
    (∀ h ∈ (lookupReg reg "*").getD [],
      EmitEv.launch h ∈ (emit reg beh event).trace) ∧
    (emit reg beh event).logged =
      optLogged beh (lookupReg reg event) ++ optLogged beh (lookupReg reg "*") := by
  rw [emit_no_throw reg beh event hs hw]
  refine ⟨rfl, ?_, ?_, rfl⟩
  · intro h hh
    exact List.mem_append.mpr (Or.inl (launch_mem_optTrace hh))
  · intro h hh
    exact List.mem_append.mpr (Or.inr (launch_mem_optTrace hh))

/-- Witness for C6 (amended): handlers [0 (rejects), 1 (ok)] under type x —
emit resolves, handler 1 runs, and the failure of 0 is logged. -/
theorem emit_isolates_rejections_witness :
    (emit [("x", [0, 1])]
        (fun h => if h = 0 then HBehavior.rejects else HBehavior.ok) "x").rejects
      = false ∧
    EmitEv.launch 1 ∈ (emit [("x", [0, 1])]
        (fun h => if h = 0 then HBehavior.rejects else HBehavior.ok) "x").trace ∧
    (emit [("x", [0, 1])]
        (fun h => if h = 0 then HBehavior.rejects else HBehavior.ok) "x").logged
      = [0] := by
  have h := emit_isolates_rejections [("x", [0, 1])]
      (fun h => if h = 0 then HBehavior.rejects else HBehavior.ok) "x"
      (by decide) (by decide)
  exact ⟨h.1, h.2.1 1 (by decide), h.2.2.2.trans (by decide)⟩

/-- C6 counterexample: with handlers [0 (throws synchronously), 1 (ok)]
registered under type x, emit rejects and handler 1 is never invoked — a
synchronous throw is not contained to its handler, contradicting the claim
that every other handler still runs and emit always resolves. -/
theorem emit_sync_throw_counterexample :
    emit [("x", [0, 1])]
        (fun h => if h = 0 then HBehavior.throwsSync else HBehavior.ok) "x" =
      ⟨[EmitEv.launch 0], true, []⟩ ∧
    EmitEv.launch 1 ∉ (emit [("x", [0, 1])]
        (fun h => if h = 0 then HBehavior.throwsSync else HBehavior.ok) "x").trace := by
  constructor <;> decide

/-- C7 (amended): within each group all handlers are launched before that
group is awaited, but the wildcard group is launched only after the
specific group has been awaited: the trace is the specific launches, the
specific await, the wildcard launches, the wildcard await. -/
theorem emit_wildcard_after_specific (reg : Registry) (beh : Nat → HBehavior)
    (event : EventType)
    (hs : ∀ x ∈ (lookupReg reg event).getD [], beh x ≠ .throwsSync)
    (hw : ∀ x ∈ (lookupReg reg "*").getD [], beh x ≠ .throwsSync) :
    (emit reg beh event).trace =
      optTrace (lookupReg reg event) ++ optTrace (lookupReg reg "*") := by
  rw [emit_no_throw reg beh event hs hw]

/-- Witness for C7 (amended): one specific handler 0 and one wildcard
handler 1 — the trace is launch 0, await, launch 1, await. -/
theorem emit_wildcard_after_specific_witness :
    (emit [("x", [0]), ("*", [1])] behOk "x").trace =
      [EmitEv.launch 0, EmitEv.awaitAll, EmitEv.launch 1, EmitEv.awaitAll] :=
  (emit_wildcard_after_specific [("x", [0]), ("*", [1])] behOk "x"
    (by decide) (by decide)).trans (by decide)

/-- C7 counterexample: with one specific and one wildcard handler, the
wildcard handler is launched only after the specific group has been
awaited, so not every handler is launched before a handler is awaited. -/
theorem emit_launch_before_await_counterexample :
    (emit [("x", [0]), ("*", [1])] behOk "x").trace =
      [EmitEv.launch 0, EmitEv.awaitAll, EmitEv.launch 1, EmitEv.awaitAll] ∧
    allLaunchedFirst (emit [("x", [0]), ("*", [1])] behOk "x").trace = false := by
  constructor <;> decide

/-- Launch counts add up over trace concatenation. -/
theorem countLaunches_append (h : Nat) (a b : List EmitEv) :
    countLaunches h (a ++ b) = countLaunches h a + countLaunches h b := by
  induction a with
  | nil => simp [countLaunches]
  | cons e rest ih => cases e <;> simp [countLaunches, ih] <;> omega

/-- Launches of a handler in a present group trace equal its occurrences in
the group. -/
theorem countLaunches_optTrace_some (h : Nat) (g : List Nat) :
    countLaunches h (optTrace (some g)) = g.count h := by
  induction g with
  | nil => simp [optTrace, countLaunches]
  | cons x rest ih =>
    have hshape : optTrace (some (x :: rest)) =
        EmitEv.launch x :: optTrace (some rest) := by simp [optTrace]
    rw [hshape, countLaunches, ih, List.count_cons]
    rcases eq_or_ne x h with rfl | hx
    · simp [Nat.add_comm]
    · simp [hx, Ne.symm hx]

/-- Launches of a handler in an optional duplicate-free group trace:
one when present, zero otherwise. -/
theorem countLaunches_optTrace (h : Nat) (g? : Option (List Nat))
    (hnd : (g?.getD []).Nodup) :
    countLaunches h (optTrace g?) = if h ∈ g?.getD [] then 1 else 0 := by
  rcases g? with _ | g
  · simp [optTrace, countLaunches]
  · simp only [Option.getD] at hnd ⊢
    rw [countLaunches_optTrace_some]
    by_cases hm : h ∈ g
    · rw [if_pos hm]
      exact List.count_eq_one_of_mem hnd hm
    · rw [if_neg hm]
      exact List.count_eq_zero_of_not_mem hm

/-- An entry found by lookup is an entry of the registry. -/
theorem lookupReg_mem {reg : Registry} {t : EventType} {hs : List Nat}
    (h : lookupReg reg t = some hs) : (t, hs) ∈ reg := by
  induction reg with
  | nil => cases h
  | cons p rest ih =>
    rcases p with ⟨t', hs'⟩
    simp only [lookupReg] at h
    split_ifs at h with ht
    · cases h
      subst ht
      exact List.mem_cons_self _ _
    · exact List.mem_cons_of_mem _ (ih h)

/-- Handler sets found in a registry whose entries are all duplicate-free
are duplicate-free. -/
theorem lookup_nodup (reg : Registry) (t : EventType)
    (hnd : ∀ p ∈ reg, List.Nodup p.2) :
    ((lookupReg reg t).getD []).Nodup := by
  rcases hl : lookupReg reg t with _ | hs
  · simp
  · simpa using hnd _ (lookupReg_mem hl)

/-- C10: when the event being emitted is the wildcard type itself, every
handler registered under the wildcard is launched exactly twice in that
single emit (once as the specific group, once as the wildcard group);
for a concrete event type each matching registration is launched exactly
once — the count of a handler is one for its registration under the event
type plus one for its registration under the wildcard. -/
theorem emit_wildcard_event_double_launch (reg : Registry)
    (beh : Nat → HBehavior)
    (hb : ∀ x, beh x ≠ HBehavior.throwsSync)
    (hnd : ∀ p ∈ reg, List.Nodup p.2) :
    (∀ h ∈ (lookupReg reg "*").getD [],
      countLaunches h (emit reg beh "*").trace = 2) ∧
    (∀ et : EventType, et ≠ "*" → ∀ h : Nat,
      countLaunches h (emit reg beh et).trace =
        (if h ∈ (lookupReg reg et).getD [] then 1 else 0) +
        (if h ∈ (lookupReg reg "*").getD [] then 1 else 0)) := by
  constructor
  · intro h hh
    rw [emit_wildcard_after_specific reg beh "*" (fun x _ => hb x) (fun x _ => hb x),
      countLaunches_append,
      countLaunches_optTrace h _ (lookup_nodup reg "*" hnd), if_pos hh]
  · intro et _ h
    rw [emit_wildcard_after_specific reg beh et (fun x _ => hb x) (fun x _ => hb x),
      countLaunches_append,
      countLaunches_optTrace h _ (lookup_nodup reg et hnd),
      countLaunches_optTrace h _ (lookup_nodup reg "*" hnd)]

/-- Witness for C10: with handler 5 under the wildcard and handler 6 under
type x, emitting a wildcard event launches 5 twice; emitting an x event
launches 6 once and 5 once. -/
theorem emit_wildcard_event_double_launch_witness :
    countLaunches 5 (emit [("x", [6]), ("*", [5])] behOk "*").trace = 2 ∧
    countLaunches 6 (emit [("x", [6]), ("*", [5])] behOk "x").trace = 1 ∧
    countLaunches 5 (emit [("x", [6]), ("*", [5])] behOk "x").trace = 1 := by
  have h := emit_wildcard_event_double_launch [("x", [6]), ("*", [5])] behOk
    (fun x => by simp [behOk]) (by decide)
  refine ⟨h.1 5 (by decide), ?_, ?_⟩
  · exact (h.2 "x" (by decide) 6).trans (by decide)
  · exact (h.2 "x" (by decide) 5).trans (by decide)

/-- A register operation preserves nonemptiness of all handler sets. -/
theorem register_wf (reg : Registry) (t : EventType) (h : Nat)
    (hw : ∀ p ∈ reg, p.2 ≠ []) :
    ∀ p ∈ WebhookEventHandler.register reg t h, p.2 ≠ [] := by
  induction reg with
  | nil =>
    intro p hp
    simp only [WebhookEventHandler.register, List.mem_singleton] at hp
    subst hp
    simp
  | cons q rest ih =>
    rcases q with ⟨t', hs⟩
    intro p hp
    simp only [WebhookEventHandler.register] at hp
    split_ifs at hp with ht hh
    · rcases List.mem_cons.mp hp with rfl | hmem
      · exact hw (t', hs) (List.mem_cons_self _ _)
      · exact hw p (List.mem_cons_of_mem _ hmem)
    · rcases List.mem_cons.mp hp with rfl | hmem
      · simp
      · exact hw p (List.mem_cons_of_mem _ hmem)
    · rcases List.mem_cons.mp hp with rfl | hmem
      · exact hw (t', hs) (List.mem_cons_self _ _)
      · exact ih (fun q hq => hw q (List.mem_cons_of_mem _ hq)) p hmem

/-- An unregister operation preserves nonemptiness of all handler sets
(an emptied set is dropped from the registry). -/
theorem off_wf (reg : Registry) (t : EventType) (h : Nat)
    (hw : ∀ p ∈ reg, p.2 ≠ []) :
    ∀ p ∈ WebhookEventHandler.off reg t h, p.2 ≠ [] := by
  induction reg with
  | nil => intro p hp; cases hp
  | cons q rest ih =>
    rcases q with ⟨t', hs⟩
    intro p hp
    simp only [WebhookEventHandler.off] at hp
    split_ifs at hp with ht hempty
    · exact hw p (List.mem_cons_of_mem _ hp)
    · rcases List.mem_cons.mp hp with rfl | hmem
      · exact hempty
      · exact hw p (List.mem_cons_of_mem _ hmem)
    · rcases List.mem_cons.mp hp with rfl | hmem
      · exact hw (t', hs) (List.mem_cons_self _ _)
      · exact ih (fun q hq => hw q (List.mem_cons_of_mem _ hq)) p hmem

/-- Any sequence of operations preserves nonemptiness of all handler sets. -/
theorem applyOps_wf (ops : List RegOp) :
    ∀ reg : Registry, (∀ p ∈ reg, p.2 ≠ []) →
      ∀ p ∈ applyOps ops reg, p.2 ≠ [] := by
  induction ops with
  | nil => intro reg hw; simpa [applyOps] using hw
  | cons op rest ih =>
    intro reg hw
    rcases op with ⟨t, h⟩ | ⟨t, h⟩
    · exact ih _ (register_wf reg t h hw)
    · exact ih _ (off_wf reg t h hw)

/-- A type listed among the registered events has an entry in the map. -/
theorem lookupReg_of_mem_keys {reg : Registry} {t : EventType}
    (h : t ∈ getRegisteredEvents reg) :
    ∃ hs, lookupReg reg t = some hs := by
  induction reg with
  | nil => simp [getRegisteredEvents] at h
  | cons p rest ih =>
    rcases p with ⟨t', hs'⟩
    by_cases ht : t' = t
    · exact ⟨hs', by simp [lookupReg, ht]⟩
    · have hmem : t ∈ getRegisteredEvents rest := by
        simp only [getRegisteredEvents, List.map_cons, List.mem_cons] at h
        rcases h with rfl | h
        · exact absurd rfl ht
        · exact h
      rcases ih hmem with ⟨hs, hl⟩
      exact ⟨hs, by simp [lookupReg, ht, hl]⟩

/-- C8: for every sequence of register/unregister operations applied to the
empty registry, every event type present in getRegisteredEvents maps to at
least one registered handler — the registry never holds an empty handler
set. -/
theorem registry_no_empty_entries (ops : List RegOp) (t : EventType)
    (ht : t ∈ getRegisteredEvents (applyOps ops [])) :
    ∃ hs, lookupReg (applyOps ops []) t = some hs ∧ hs ≠ [] := by
  rcases lookupReg_of_mem_keys ht with ⟨hs, hl⟩
  exact ⟨hs, hl, applyOps_wf ops [] (by simp) (t, hs) (lookupReg_mem hl)⟩

/-- Witness for C8: register a/1 and b/2 then unregister a/1 — type b still
has a nonempty handler set. -/
theorem registry_no_empty_entries_witness :
    ∃ hs, lookupReg
        (applyOps
          [RegOp.register "a" 1, RegOp.register "b" 2, RegOp.unregister "a" 1] [])
        "b" = some hs ∧ hs ≠ [] :=
  registry_no_empty_entries
    [RegOp.register "a" 1, RegOp.register "b" 2, RegOp.unregister "a" 1]
    "b" (by decide)
